import Mathlib

/-!
Verification of the retrying JSON-RPC dispatch core of a Bitcoin Core RPC
client (bitcoincore.rs).

The dispatch core is BitcoinCoreClient::send: given an optional retry
configuration, it calls the transport; an application error with code -28
(node still starting) triggers a sleep of the configured interval and a
retry, up to max_retries loop iterations, after which one final
unconditional transport call is made and its result returned verbatim.
Every other outcome (transport failure, application success, application
error with another code) is returned immediately.

We embed the dispatch as a pure function over a response environment
(call : Nat -> TransportResult R), giving the response of the i-th
transport call of a dispatch, and we record a trace of events (transport
attempts and sleeps) so that call counts and accumulated sleep time are
observable.
-/

namespace BitcoinRpcClient

/-- Application-level error reported by the node (jsonrpc_client RpcError):
a numeric code and a message. -/
structure RpcError where
  code : Int
  message : String
deriving Repr, DecidableEq

/-- Transport-level error (jsonrpc_client ClientError): connection failure,
timeout, or an undecodable response body. Kept abstract as a message. -/
structure ClientError where
  message : String
deriving Repr, DecidableEq

/-- The nested two-layer outcome of one transport call, mirroring the Rust
type Result of Result of R and RpcError, and ClientError: the outer layer
is the transport result, the inner layer the application result. -/
abbrev TransportResult (R : Type) := Except ClientError (Except RpcError R)

/-- Retry configuration, mirroring struct RetryConfig: a maximum number of
retried attempts and a sleep interval in milliseconds. -/
structure RetryConfig where
  max_retries : Nat
  interval : Nat
deriving Repr, DecidableEq

/-- Observable events of one dispatch: the i-th transport attempt, or a
blocking sleep of the given number of milliseconds. -/
inductive Event where
  | attempt (i : Nat)
  | sleep (ms : Nat)
deriving Repr, DecidableEq

/-- The guard of the retry branch in BitcoinCoreClient::send:
Ok(Err(rpc_error)) with rpc_error.code == -28. -/
def isBusy {R : Type} : TransportResult R → Bool
  | Except.ok (Except.error e) => e.code == -28
  | _ => false

/-- The retry loop of BitcoinCoreClient::send: i is the current attempt
index, the second argument the number of loop iterations left. When the
loop is exhausted the final unconditional transport call is made (the
fall-through self.client.send(request) after the for loop) and its result
returned verbatim. A busy response records the attempt and a sleep of the
configured interval, then continues with the next attempt. -/
def sendLoop {R : Type} (interval : Nat) (call : Nat → TransportResult R) :
    Nat → Nat → TransportResult R × List Event
  | i, 0 => (call i, [Event.attempt i])
  | i, n + 1 =>
    if isBusy (call i) then
      ((sendLoop interval call (i + 1) n).1,
        Event.attempt i :: Event.sleep interval :: (sendLoop interval call (i + 1) n).2)
    else
      (call i, [Event.attempt i])

/-- BitcoinCoreClient::send, abstracted over the retry configuration and the
transport responses: with a configuration, run the retry loop for
max_retries iterations starting at attempt 0; with none, make exactly one
transport call and return its result verbatim. -/
def send {R : Type} (retry_config : Option RetryConfig)
    (call : Nat → TransportResult R) : TransportResult R × List Event :=
  match retry_config with
  | some config => sendLoop config.interval call 0 config.max_retries
  | none => (call 0, [Event.attempt 0])

/-- Number of transport attempts recorded in a trace. -/
def attemptCount : List Event → Nat
  | [] => 0
  | Event.attempt _ :: rest => attemptCount rest + 1
  | Event.sleep _ :: rest => attemptCount rest

/-- Number of sleeps recorded in a trace. -/
def sleepCount : List Event → Nat
  | [] => 0
  | Event.attempt _ :: rest => sleepCount rest
  | Event.sleep _ :: rest => sleepCount rest + 1

/-- Total configured sleep time recorded in a trace, in milliseconds. -/
def totalSleep : List Event → Nat
  | [] => 0
  | Event.attempt _ :: rest => totalSleep rest
  | Event.sleep ms :: rest => ms + totalSleep rest

/-- The trace of a dispatch whose first k attempts (starting at index i) are
all busy and which then stops at attempt i + k: attempts interleaved with
sleeps of the configured interval, ending in the final attempt with no
sleep after it. -/
def busyTrace (interval : Nat) : Nat → Nat → List Event
  | i, 0 => [Event.attempt i]
  | i, n + 1 => Event.attempt i :: Event.sleep interval :: busyTrace interval (i + 1) n

/-- The number of loop attempts the configuration allows before the final
unconditional call. -/
def configuredAttempts : Option RetryConfig → Nat
  | none => 0
  | some config => config.max_retries

/-! Constructor model: base64 encoding of the credentials, header-value
validation, and BitcoinCoreClient::new. -/

/-- The standard base64 alphabet used by the base64 crate. -/
def base64Alphabet : List Char :=
  "ABCDEFGHIJKLMNOPQRSTUVWXYZabcdefghijklmnopqrstuvwxyz0123456789+/".toList

/-- The base64 digit for a 6-bit value. -/
def b64Char (n : Nat) : Char := base64Alphabet.getD n 'A'

/-- Base64-encode a byte list: three input bytes become four output
characters, with terminal groups of one or two bytes padded with the
equals sign, as in base64::encode. -/
def base64Chunks : List UInt8 → List Char
  | [] => []
  | [a] =>
    [b64Char (a.toNat / 4), b64Char (a.toNat % 4 * 16), '=', '=']
  | [a, b] =>
    [b64Char (a.toNat / 4), b64Char (a.toNat % 4 * 16 + b.toNat / 16),
      b64Char (b.toNat % 16 * 4), '=']
  | a :: b :: c :: rest =>
    b64Char (a.toNat / 4) :: b64Char (a.toNat % 4 * 16 + b.toNat / 16) ::
      b64Char (b.toNat % 16 * 4 + c.toNat / 64) :: b64Char (c.toNat % 64) ::
      base64Chunks rest

/-- base64::encode on the UTF-8 bytes of a string (the byte list is the
flat map of the UTF-8 encoding over the characters, as in
String.toUTF8). -/
def base64Encode (s : String) : String :=
  String.mk (base64Chunks (s.data.flatMap String.utf8EncodeChar))

/-- Validity of one character of an HTTP header value (http::HeaderValue):
visible ASCII, space, or horizontal tab. Modelled at the character level;
the header values built by this client are pure ASCII, where characters
and UTF-8 bytes coincide. -/
def isValidHeaderChar (c : Char) : Bool :=
  (32 ≤ c.toNat && c.toNat != 127) || c.toNat == 9

/-- HeaderValue::from_str: succeeds exactly when every character is a valid
header-value character. -/
def HeaderValue.from_str (s : String) : Option String :=
  if s.toList.all isValidHeaderChar then some s else none

/-- The configured RPC client (jsonrpc_client RpcClient): an HTTP transport
carrying the fixed default Authorization header value, bound to the base
url. -/
structure RpcClient where
  url : String
  authHeader : String
deriving Repr, DecidableEq

/-- The client: the configured transport binding and the optional retry
configuration. -/
structure BitcoinCoreClient where
  client : RpcClient
  retry_config : Option RetryConfig

/-- BitcoinCoreClient::new: build the Authorization header value
Basic base64(username:password); the none branch models the
construction-time panic of the unwrap when the header value is invalid.
Building the HTTP transport itself (an external collaborator whose
failure, were it to occur, also panics inside new) is modelled as
succeeding. On success the client carries the default retry configuration
of 10 retries at a 500 ms interval. -/
def BitcoinCoreClient.new (url username password : String) :
    Option BitcoinCoreClient :=
  match HeaderValue.from_str
      ("Basic " ++ base64Encode (username ++ ":" ++ password)) with
  | none => none
  | some h =>
    some { client := { url := url, authHeader := h },
           retry_config := some { max_retries := 10, interval := 500 } }

/-! Request-envelope model: the JSON-RPC request built by every method
adapter, with positional parameters serialized in order. -/

/-- JSON-RPC protocol version tag (jsonrpc_client JsonRpcVersion). -/
inductive JsonRpcVersion where
  | V1
  | V2
deriving Repr, DecidableEq

/-- A serialized positional parameter as it appears in the request params
array: a number, string, boolean, null, array, or the serialization of a
domain value from an external crate, kept abstract as a tagged token. -/
inductive SVal where
  | num (n : Nat)
  | str (s : String)
  | bool (b : Bool)
  | null
  | arr (xs : List SVal)
  | payload (ty : String) (val : String)

/-- Serialization into a positional parameter (serde Serialize). -/
class Ser (α : Type) where
  ser : α → SVal

instance : Ser Nat := ⟨SVal.num⟩

instance : Ser String := ⟨SVal.str⟩

instance : Ser Bool := ⟨SVal.bool⟩

instance {α : Type} [Ser α] : Ser (Option α) where
  ser
    | none => SVal.null
    | some a => Ser.ser a

instance {α : Type} [Ser α] : Ser (List α) where
  ser xs := SVal.arr (xs.map Ser.ser)

/-- Domain type from the bitcoin crate, an externally serialized payload. -/
structure Address where
  repr : String

instance : Ser Address := ⟨fun v => SVal.payload "Address" v.repr⟩

/-- Domain type from the bitcoin crate, an externally serialized payload. -/
structure Script where
  repr : String

instance : Ser Script := ⟨fun v => SVal.payload "Script" v.repr⟩

/-- Transaction identifier, an externally serialized payload. -/
structure TransactionId where
  repr : String

instance : Ser TransactionId := ⟨fun v => SVal.payload "TransactionId" v.repr⟩

/-- Block-hash domain type, an externally serialized payload. -/
structure BlockHash where
  repr : String

instance : Ser BlockHash := ⟨fun v => SVal.payload "BlockHash" v.repr⟩

/-- Hex-serialized raw transaction (rpc::SerializedRawTransaction). -/
structure SerializedRawTransaction where
  repr : String

instance : Ser SerializedRawTransaction :=
  ⟨fun v => SVal.payload "SerializedRawTransaction" v.repr⟩

/-- Input description for createrawtransaction (rpc::NewTransactionInput). -/
structure NewTransactionInput where
  repr : String

instance : Ser NewTransactionInput :=
  ⟨fun v => SVal.payload "NewTransactionInput" v.repr⟩

/-- Output description for createrawtransaction (rpc::NewTransactionOutput). -/
structure NewTransactionOutput where
  repr : String

instance : Ser NewTransactionOutput :=
  ⟨fun v => SVal.payload "NewTransactionOutput" v.repr⟩

/-- Wallet-interchange private key (rpc::PrivateKey). -/
structure PrivateKey where
  repr : String

instance : Ser PrivateKey := ⟨fun v => SVal.payload "PrivateKey" v.repr⟩

/-- Options object for fundrawtransaction (rpc::FundingOptions). -/
structure FundingOptions where
  repr : String

instance : Ser FundingOptions := ⟨fun v => SVal.payload "FundingOptions" v.repr⟩

/-- Previous-output detail for signrawtransactionwithkey
(rpc::TransactionOutputDetail). -/
structure TransactionOutputDetail where
  repr : String

instance : Ser TransactionOutputDetail :=
  ⟨fun v => SVal.payload "TransactionOutputDetail" v.repr⟩

/-- Signature-hash type flag (rpc::SigHashType). -/
structure SigHashType where
  repr : String

instance : Ser SigHashType := ⟨fun v => SVal.payload "SigHashType" v.repr⟩

/-- IEEE double amount argument of sendtoaddress, kept abstract. -/
structure F64 where
  repr : String

instance : Ser F64 := ⟨fun v => SVal.payload "f64" v.repr⟩

/-- IEEE single-precision balance response of getbalance, kept abstract. -/
structure F32 where
  repr : String

/-- Response-only domain type (rpc::MultiSigAddress). -/
structure MultiSigAddress where
  repr : String

/-- Response-only domain type (rpc::DecodedRawTransaction). -/
structure DecodedRawTransaction where
  repr : String

/-- Response-only domain type (rpc::DecodedScript). -/
structure DecodedScript where
  repr : String

/-- Response-only domain type (rpc::FundingResult). -/
structure FundingResult where
  repr : String

/-- Response-only domain type (types::address AddressInfoResult). -/
structure AddressInfoResult where
  repr : String

/-- Response-only domain type (rpc::Block, generic in its transaction
representation). -/
structure Block (T : Type) where
  repr : String

/-- Response-only domain type (rpc::BlockchainInfo). -/
structure BlockchainInfo where
  repr : String

/-- Response-only domain type (rpc::BlockHeight). -/
structure BlockHeight where
  repr : String

/-- Response-only domain type (rpc::VerboseRawTransaction). -/
structure VerboseRawTransaction where
  repr : String

/-- Response-only domain type (rpc::UnspentTransactionOutput). -/
structure UnspentTransactionOutput where
  repr : String

/-- Response-only domain type (rpc::SigningResult). -/
structure SigningResult where
  repr : String

/-- Response-only domain type (rpc::AddressValidationResult). -/
structure AddressValidationResult where
  repr : String

/-- Minimum-confirmations argument of listunspent
(rpc::TxOutConfirmations); its two variants are those matched in
list_unspent. -/
inductive TxOutConfirmations where
  | Unconfirmed
  | AtLeast (n : Nat)

/-- The JSON-RPC request envelope (jsonrpc_client RpcRequest): version tag,
request id, method name, and positional parameters serialized in order. -/
structure RpcRequest where
  version : JsonRpcVersion
  id : String
  method : String
  params : List SVal

/-- RpcRequest::new0: an envelope with no parameter. -/
def RpcRequest.new0 (v : JsonRpcVersion) (id method : String) : RpcRequest :=
  { version := v, id := id, method := method, params := [] }

/-- RpcRequest::new1: an envelope with one positional parameter. -/
def RpcRequest.new1 {A : Type} [Ser A] (v : JsonRpcVersion)
    (id method : String) (a : A) : RpcRequest :=
  { version := v, id := id, method := method, params := [Ser.ser a] }

/-- RpcRequest::new2: an envelope with two positional parameters. -/
def RpcRequest.new2 {A B : Type} [Ser A] [Ser B] (v : JsonRpcVersion)
    (id method : String) (a : A) (b : B) : RpcRequest :=
  { version := v, id := id, method := method, params := [Ser.ser a, Ser.ser b] }

/-- RpcRequest::new3: an envelope with three positional parameters. -/
def RpcRequest.new3 {A B C : Type} [Ser A] [Ser B] [Ser C] (v : JsonRpcVersion)
    (id method : String) (a : A) (b : B) (c : C) : RpcRequest :=
  { version := v, id := id, method := method,
    params := [Ser.ser a, Ser.ser b, Ser.ser c] }

/-- RpcRequest::new4: an envelope with four positional parameters. -/
def RpcRequest.new4 {A B C D : Type} [Ser A] [Ser B] [Ser C] [Ser D]
    (v : JsonRpcVersion) (id method : String) (a : A) (b : B) (c : C) (d : D) :
    RpcRequest :=
  { version := v, id := id, method := method,
    params := [Ser.ser a, Ser.ser b, Ser.ser c, Ser.ser d] }

/-- The transport environment for one request: the response the node gives
on the i-th transport call issued for that request. -/
abbrev Env (R : Type) := RpcRequest → Nat → TransportResult R

/-- BitcoinCoreClient::send as the method on a client: dispatch a request
through the retry core with the client configuration, against the
transport responses of the environment. -/
def BitcoinCoreClient.send {R : Type} (c : BitcoinCoreClient) (env : Env R)
    (request : RpcRequest) : TransportResult R × List Event :=
  BitcoinRpcClient.send c.retry_config (env request)

/-- The envelope built by add_multisig_address. -/
def add_multisig_address_request (number_of_required_signatures : Nat)
    (participants : List Address) : RpcRequest :=
  RpcRequest.new2 JsonRpcVersion.V1 "42" "addmultisigaddress"
    number_of_required_signatures participants

/-- Method adapter add_multisig_address. -/
def BitcoinCoreClient.add_multisig_address (c : BitcoinCoreClient)
    (env : Env MultiSigAddress) (number_of_required_signatures : Nat)
    (participants : List Address) : TransportResult MultiSigAddress × List Event :=
  c.send env (add_multisig_address_request number_of_required_signatures participants)

/-- The envelope built by create_raw_transaction. -/
def create_raw_transaction_request (inputs : List NewTransactionInput)
    (output : NewTransactionOutput) : RpcRequest :=
  RpcRequest.new2 JsonRpcVersion.V1 "42" "createrawtransaction" inputs output

/-- Method adapter create_raw_transaction. -/
def BitcoinCoreClient.create_raw_transaction (c : BitcoinCoreClient)
    (env : Env SerializedRawTransaction) (inputs : List NewTransactionInput)
    (output : NewTransactionOutput) :
    TransportResult SerializedRawTransaction × List Event :=
  c.send env (create_raw_transaction_request inputs output)

/-- The envelope built by decode_rawtransaction. -/
def decode_rawtransaction_request (tx : SerializedRawTransaction) : RpcRequest :=
  RpcRequest.new1 JsonRpcVersion.V1 "42" "decoderawtransaction" tx

/-- Method adapter decode_rawtransaction. -/
def BitcoinCoreClient.decode_rawtransaction (c : BitcoinCoreClient)
    (env : Env DecodedRawTransaction) (tx : SerializedRawTransaction) :
    TransportResult DecodedRawTransaction × List Event :=
  c.send env (decode_rawtransaction_request tx)

/-- The envelope built by decode_script. -/
def decode_script_request (script : Script) : RpcRequest :=
  RpcRequest.new1 JsonRpcVersion.V1 "42" "decodescript" script

/-- Method adapter decode_script. -/
def BitcoinCoreClient.decode_script (c : BitcoinCoreClient)
    (env : Env DecodedScript) (script : Script) :
    TransportResult DecodedScript × List Event :=
  c.send env (decode_script_request script)

/-- The envelope built by dump_privkey. -/
def dump_privkey_request (address : Address) : RpcRequest :=
  RpcRequest.new1 JsonRpcVersion.V1 "42" "dumpprivkey" address

/-- Method adapter dump_privkey. -/
def BitcoinCoreClient.dump_privkey (c : BitcoinCoreClient)
    (env : Env PrivateKey) (address : Address) :
    TransportResult PrivateKey × List Event :=
  c.send env (dump_privkey_request address)

/-- The envelope built by fund_raw_transaction. -/
def fund_raw_transaction_request (tx : SerializedRawTransaction)
    (options : FundingOptions) : RpcRequest :=
  RpcRequest.new2 JsonRpcVersion.V1 "42" "fundrawtransaction" tx options

/-- Method adapter fund_raw_transaction. -/
def BitcoinCoreClient.fund_raw_transaction (c : BitcoinCoreClient)
    (env : Env FundingResult) (tx : SerializedRawTransaction)
    (options : FundingOptions) : TransportResult FundingResult × List Event :=
  c.send env (fund_raw_transaction_request tx options)

/-- The envelope built by generate. -/
def generate_request (number_of_blocks : Nat) : RpcRequest :=
  RpcRequest.new1 JsonRpcVersion.V1 "42" "generate" number_of_blocks

/-- Method adapter generate. -/
def BitcoinCoreClient.generate (c : BitcoinCoreClient)
    (env : Env (List BlockHash)) (number_of_blocks : Nat) :
    TransportResult (List BlockHash) × List Event :=
  c.send env (generate_request number_of_blocks)

/-- The envelope built by generate_to_address. -/
def generate_to_address_request (number_of_blocks : Nat) (address : Address) :
    RpcRequest :=
  RpcRequest.new2 JsonRpcVersion.V1 "42" "generatetoaddress" number_of_blocks address

/-- Method adapter generate_to_address. -/
def BitcoinCoreClient.generate_to_address (c : BitcoinCoreClient)
    (env : Env (List BlockHash)) (number_of_blocks : Nat) (address : Address) :
    TransportResult (List BlockHash) × List Event :=
  c.send env (generate_to_address_request number_of_blocks address)

/-- The envelope built by get_address_info. -/
def get_address_info_request (address : Address) : RpcRequest :=
  RpcRequest.new1 JsonRpcVersion.V1 "42" "getaddressinfo" address

/-- Method adapter get_address_info. -/
def BitcoinCoreClient.get_address_info (c : BitcoinCoreClient)
    (env : Env AddressInfoResult) (address : Address) :
    TransportResult AddressInfoResult × List Event :=
  c.send env (get_address_info_request address)

/-- The envelope built by get_balance. -/
def get_balance_request : RpcRequest :=
  RpcRequest.new0 JsonRpcVersion.V1 "42" "getbalance"

/-- Method adapter get_balance. -/
def BitcoinCoreClient.get_balance (c : BitcoinCoreClient) (env : Env F32) :
    TransportResult F32 × List Event :=
  c.send env get_balance_request

/-- The envelope built by get_best_block_hash. -/
def get_best_block_hash_request : RpcRequest :=
  RpcRequest.new0 JsonRpcVersion.V1 "42" "getbestblockhash"

/-- Method adapter get_best_block_hash. -/
def BitcoinCoreClient.get_best_block_hash (c : BitcoinCoreClient)
    (env : Env BlockHash) : TransportResult BlockHash × List Event :=
  c.send env get_best_block_hash_request

/-- The envelope built by get_block. -/
def get_block_request (header_hash : BlockHash) : RpcRequest :=
  RpcRequest.new1 JsonRpcVersion.V1 "42" "getblock" header_hash

/-- Method adapter get_block. -/
def BitcoinCoreClient.get_block (c : BitcoinCoreClient)
    (env : Env (Block TransactionId)) (header_hash : BlockHash) :
    TransportResult (Block TransactionId) × List Event :=
  c.send env (get_block_request header_hash)

/-- The envelope built by get_block_verbose: the same method name getblock
with verbosity level 2 as second positional parameter. -/
def get_block_verbose_request (header_hash : BlockHash) : RpcRequest :=
  RpcRequest.new2 JsonRpcVersion.V1 "42" "getblock" header_hash (2 : Nat)

/-- Method adapter get_block_verbose. -/
def BitcoinCoreClient.get_block_verbose (c : BitcoinCoreClient)
    (env : Env (Block DecodedRawTransaction)) (header_hash : BlockHash) :
    TransportResult (Block DecodedRawTransaction) × List Event :=
  c.send env (get_block_verbose_request header_hash)

/-- The envelope built by get_blockchain_info. -/
def get_blockchain_info_request : RpcRequest :=
  RpcRequest.new0 JsonRpcVersion.V1 "42" "getblockchaininfo"

/-- Method adapter get_blockchain_info. -/
def BitcoinCoreClient.get_blockchain_info (c : BitcoinCoreClient)
    (env : Env BlockchainInfo) : TransportResult BlockchainInfo × List Event :=
  c.send env get_blockchain_info_request

/-- The envelope built by get_block_count. -/
def get_block_count_request : RpcRequest :=
  RpcRequest.new0 JsonRpcVersion.V1 "42" "getblockcount"

/-- Method adapter get_block_count. -/
def BitcoinCoreClient.get_block_count (c : BitcoinCoreClient)
    (env : Env BlockHeight) : TransportResult BlockHeight × List Event :=
  c.send env get_block_count_request

/-- The envelope built by get_block_hash. -/
def get_block_hash_request (height : Nat) : RpcRequest :=
  RpcRequest.new1 JsonRpcVersion.V1 "42" "getblockhash" height

/-- Method adapter get_block_hash. -/
def BitcoinCoreClient.get_block_hash (c : BitcoinCoreClient)
    (env : Env BlockHash) (height : Nat) :
    TransportResult BlockHash × List Event :=
  c.send env (get_block_hash_request height)

/-- The envelope built by get_new_address: empty label and the bech32
address type as fixed positional parameters. -/
def get_new_address_request : RpcRequest :=
  RpcRequest.new2 JsonRpcVersion.V1 "42" "getnewaddress" "" "bech32"

/-- Method adapter get_new_address. -/
def BitcoinCoreClient.get_new_address (c : BitcoinCoreClient)
    (env : Env Address) : TransportResult Address × List Event :=
  c.send env get_new_address_request

/-- The envelope built by the private helper get_raw_transaction, generic in
the expected response shape, with the verbosity flag as second positional
parameter. -/
def get_raw_transaction_request (tx : TransactionId) (verbose : Bool) :
    RpcRequest :=
  RpcRequest.new2 JsonRpcVersion.V1 "42" "getrawtransaction" tx verbose

/-- Private helper get_raw_transaction, generic in the response type. -/
def BitcoinCoreClient.get_raw_transaction {R : Type} (c : BitcoinCoreClient)
    (env : Env R) (tx : TransactionId) (verbose : Bool) :
    TransportResult R × List Event :=
  c.send env (get_raw_transaction_request tx verbose)

/-- Method adapter get_raw_transaction_serialized: the helper with verbose
false. -/
def BitcoinCoreClient.get_raw_transaction_serialized (c : BitcoinCoreClient)
    (env : Env SerializedRawTransaction) (tx : TransactionId) :
    TransportResult SerializedRawTransaction × List Event :=
  c.get_raw_transaction env tx false

/-- Method adapter get_raw_transaction_verbose: the helper with verbose
true. -/
def BitcoinCoreClient.get_raw_transaction_verbose (c : BitcoinCoreClient)
    (env : Env VerboseRawTransaction) (tx : TransactionId) :
    TransportResult VerboseRawTransaction × List Event :=
  c.get_raw_transaction env tx true

/-- The envelope built by list_unspent: the minimum-confirmations argument
is first mapped to a number, Unconfirmed to 0 and AtLeast number to
number, then sent as the first of three positional parameters. -/
def list_unspent_request (min_confirmations : TxOutConfirmations)
    (max_confirmations : Option Nat) (recipients : Option (List Address)) :
    RpcRequest :=
  let min_confirmations :=
    match min_confirmations with
    | TxOutConfirmations.Unconfirmed => 0
    | TxOutConfirmations.AtLeast number => number
  RpcRequest.new3 JsonRpcVersion.V1 "42" "listunspent" min_confirmations
    max_confirmations recipients

/-- Method adapter list_unspent. -/
def BitcoinCoreClient.list_unspent (c : BitcoinCoreClient)
    (env : Env (List UnspentTransactionOutput))
    (min_confirmations : TxOutConfirmations) (max_confirmations : Option Nat)
    (recipients : Option (List Address)) :
    TransportResult (List UnspentTransactionOutput) × List Event :=
  c.send env (list_unspent_request min_confirmations max_confirmations recipients)

/-- The envelope built by send_raw_transaction. -/
def send_raw_transaction_request (tx_data : SerializedRawTransaction) :
    RpcRequest :=
  RpcRequest.new1 JsonRpcVersion.V1 "42" "sendrawtransaction" tx_data

/-- Method adapter send_raw_transaction. -/
def BitcoinCoreClient.send_raw_transaction (c : BitcoinCoreClient)
    (env : Env TransactionId) (tx_data : SerializedRawTransaction) :
    TransportResult TransactionId × List Event :=
  c.send env (send_raw_transaction_request tx_data)

/-- The envelope built by send_to_address. -/
def send_to_address_request (address : Address) (amount : F64) : RpcRequest :=
  RpcRequest.new2 JsonRpcVersion.V1 "42" "sendtoaddress" address amount

/-- Method adapter send_to_address. -/
def BitcoinCoreClient.send_to_address (c : BitcoinCoreClient)
    (env : Env TransactionId) (address : Address) (amount : F64) :
    TransportResult TransactionId × List Event :=
  c.send env (send_to_address_request address amount)

/-- The envelope built by sign_raw_transaction_with_key, the only
four-parameter request. -/
def sign_raw_transaction_with_key_request (tx : SerializedRawTransaction)
    (private_keys : Option (List PrivateKey))
    (dependencies : Option (List TransactionOutputDetail))
    (signature_hash_type : Option SigHashType) : RpcRequest :=
  RpcRequest.new4 JsonRpcVersion.V1 "42" "signrawtransactionwithkey" tx
    private_keys dependencies signature_hash_type

/-- Method adapter sign_raw_transaction_with_key. -/
def BitcoinCoreClient.sign_raw_transaction_with_key (c : BitcoinCoreClient)
    (env : Env SigningResult) (tx : SerializedRawTransaction)
    (private_keys : Option (List PrivateKey))
    (dependencies : Option (List TransactionOutputDetail))
    (signature_hash_type : Option SigHashType) :
    TransportResult SigningResult × List Event :=
  c.send env (sign_raw_transaction_with_key_request tx private_keys
    dependencies signature_hash_type)

/-- The envelope built by validate_address. -/
def validate_address_request (address : Address) : RpcRequest :=
  RpcRequest.new1 JsonRpcVersion.V1 "42" "validateaddress" address

/-- Method adapter validate_address. -/
def BitcoinCoreClient.validate_address (c : BitcoinCoreClient)
    (env : Env AddressValidationResult) (address : Address) :
    TransportResult AddressValidationResult × List Event :=
  c.send env (validate_address_request address)

/-- Well-formedness of one request envelope: protocol version V1, the
constant request id 42, and at most four positional parameters. -/
def envelopeOk (r : RpcRequest) : Prop :=
  r.version = JsonRpcVersion.V1 ∧ r.id = "42" ∧ r.params.length ≤ 4

/-- A concrete busy response: transport success carrying the application
error code -28, used in witnesses. -/
def busyResponse {R : Type} : TransportResult R :=
  Except.ok (Except.error { code := -28, message := "Loading block index" })

/-! Lemmas about the dispatch core. -/

lemma attemptCount_busyTrace (interval : Nat) :
    ∀ (n i : Nat), attemptCount (busyTrace interval i n) = n + 1 := by
  intro n
  induction n with
  | zero => intro i; simp [busyTrace, attemptCount]
  | succ n ih => intro i; simp [busyTrace, attemptCount, ih]

lemma sleepCount_busyTrace (interval : Nat) :
    ∀ (n i : Nat), sleepCount (busyTrace interval i n) = n := by
  intro n
  induction n with
  | zero => intro i; simp [busyTrace, sleepCount]
  | succ n ih => intro i; simp [busyTrace, sleepCount, ih]

lemma totalSleep_busyTrace (interval : Nat) :
    ∀ (n i : Nat), totalSleep (busyTrace interval i n) = n * interval := by
  intro n
  induction n with
  | zero => intro i; simp [busyTrace, totalSleep]
  | succ n ih =>
    intro i
    simp [busyTrace, totalSleep, ih]
    ring

lemma sendLoop_all_busy {R : Type} (interval : Nat) (call : Nat → TransportResult R) :
    ∀ (n i : Nat), (∀ j, j < n → isBusy (call (i + j)) = true) →
    sendLoop interval call i n = (call (i + n), busyTrace interval i n) := by
  intro n
  induction n with
  | zero => intro i _; simp [sendLoop, busyTrace]
  | succ n ih =>
    intro i h
    have h0 : isBusy (call i) = true := by simpa using h 0 (Nat.succ_pos n)
    have hrest : ∀ j, j < n → isBusy (call (i + 1 + j)) = true := by
      intro j hj
      have := h (j + 1) (by omega)
      rwa [show i + (j + 1) = i + 1 + j by omega] at this
    have hnext := ih (i + 1) hrest
    rw [show i + (n + 1) = i + 1 + n by omega]
    simp [sendLoop, h0, hnext, busyTrace]

lemma sendLoop_early {R : Type} (interval : Nat) (call : Nat → TransportResult R) :
    ∀ (k n i : Nat), k < n → (∀ j, j < k → isBusy (call (i + j)) = true) →
    isBusy (call (i + k)) = false →
    sendLoop interval call i n = (call (i + k), busyTrace interval i k) := by
  intro k
  induction k with
  | zero =>
    intro n i hk _ hnb
    obtain ⟨m, rfl⟩ : ∃ m, n = m + 1 := ⟨n - 1, by omega⟩
    simp only [Nat.add_zero] at hnb
    simp [sendLoop, hnb, busyTrace]
  | succ k ih =>
    intro n i hk hb hnb
    obtain ⟨m, rfl⟩ : ∃ m, n = m + 1 := ⟨n - 1, by omega⟩
    have h0 : isBusy (call i) = true := by simpa using hb 0 (Nat.succ_pos k)
    have hb1 : ∀ j, j < k → isBusy (call (i + 1 + j)) = true := by
      intro j hj
      have := hb (j + 1) (by omega)
      rwa [show i + (j + 1) = i + 1 + j by omega] at this
    have hnb1 : isBusy (call (i + 1 + k)) = false := by
      rwa [show i + (k + 1) = i + 1 + k by omega] at hnb
    have hnext := ih m (i + 1) (by omega) hb1 hnb1
    rw [show i + (k + 1) = i + 1 + k by omega]
    simp [sendLoop, h0, hnext, busyTrace]

lemma sendLoop_exists {R : Type} (interval : Nat) (call : Nat → TransportResult R) :
    ∀ (n i : Nat), ∃ k, k ≤ n ∧
    sendLoop interval call i n = (call (i + k), busyTrace interval i k) := by
  intro n
  induction n with
  | zero => intro i; exact ⟨0, Nat.le_refl 0, by simp [sendLoop, busyTrace]⟩
  | succ n ih =>
    intro i
    cases hb : isBusy (call i) with
    | false => exact ⟨0, Nat.zero_le _, by simp [sendLoop, hb, busyTrace]⟩
    | true =>
      obtain ⟨k, hk, heq⟩ := ih (i + 1)
      refine ⟨k + 1, by omega, ?_⟩
      rw [show i + (k + 1) = i + 1 + k by omega]
      simp [sendLoop, hb, heq, busyTrace]

/-! Lemmas about the constructor. -/

lemma isValidHeaderChar_of_mem_alphabet :
    ∀ c ∈ base64Alphabet, isValidHeaderChar c = true := by decide

lemma isValidHeaderChar_getD (l : List Char) (d : Char)
    (hl : ∀ c ∈ l, isValidHeaderChar c = true) (hd : isValidHeaderChar d = true) :
    ∀ n, isValidHeaderChar (l.getD n d) = true := by
  induction l with
  | nil => intro n; simpa [List.getD] using hd
  | cons x xs ih =>
    intro n
    cases n with
    | zero => simpa using hl x (List.mem_cons_self x xs)
    | succ n =>
      simpa using ih (fun c hc => hl c (List.mem_cons_of_mem x hc)) n

lemma isValidHeaderChar_b64Char (n : Nat) : isValidHeaderChar (b64Char n) = true :=
  isValidHeaderChar_getD base64Alphabet 'A' isValidHeaderChar_of_mem_alphabet
    (by decide) n

lemma base64Chunks_valid :
    ∀ (fuel : Nat) (bs : List UInt8), bs.length ≤ fuel →
    ∀ c ∈ base64Chunks bs, isValidHeaderChar c = true := by
  intro fuel
  induction fuel with
  | zero =>
    intro bs hlen c hc
    have hbs : bs = [] := List.eq_nil_of_length_eq_zero (by omega)
    subst hbs
    simp [base64Chunks] at hc
  | succ fuel ih =>
    intro bs hlen c hc
    rcases bs with _ | ⟨a, _ | ⟨b, _ | ⟨c0, rest⟩⟩⟩
    · simp [base64Chunks] at hc
    · simp [base64Chunks] at hc
      rcases hc with rfl | rfl | rfl
      · exact isValidHeaderChar_b64Char _
      · exact isValidHeaderChar_b64Char _
      · decide
    · simp [base64Chunks] at hc
      rcases hc with rfl | rfl | rfl | rfl
      · exact isValidHeaderChar_b64Char _
      · exact isValidHeaderChar_b64Char _
      · exact isValidHeaderChar_b64Char _
      · decide
    · simp [base64Chunks] at hc
      rcases hc with rfl | rfl | rfl | rfl | hmem
      · exact isValidHeaderChar_b64Char _
      · exact isValidHeaderChar_b64Char _
      · exact isValidHeaderChar_b64Char _
      · exact isValidHeaderChar_b64Char _
      · have hrest : rest.length ≤ fuel := by
          simp [List.length_cons] at hlen
          omega
        exact ih rest hrest c hmem

lemma base64Encode_valid (s : String) :
    ∀ c ∈ (base64Encode s).toList, isValidHeaderChar c = true := by
  intro c hc
  have heq : (base64Encode s).toList
      = base64Chunks (s.data.flatMap String.utf8EncodeChar) := rfl
  rw [heq] at hc
  exact base64Chunks_valid (s.data.flatMap String.utf8EncodeChar).length _
    (Nat.le_refl _) c hc

lemma authHeader_valid (username password : String) :
    (("Basic " ++ base64Encode (username ++ ":" ++ password)).toList.all
      isValidHeaderChar) = true := by
  rw [List.all_eq_true]
  intro c hc
  have hsplit : ("Basic " ++ base64Encode (username ++ ":" ++ password)).toList
      = "Basic ".toList ++ (base64Encode (username ++ ":" ++ password)).toList := by
    simp [String.toList, String.data_append]
  rw [hsplit] at hc
  rcases List.mem_append.mp hc with h | h
  · have hbasic : ∀ x ∈ "Basic ".toList, isValidHeaderChar x = true := by decide
    exact hbasic c h
  · exact base64Encode_valid _ c h

lemma new_eq (url username password : String) :
    BitcoinCoreClient.new url username password =
      some { client := { url := url,
                         authHeader :=
                           "Basic " ++ base64Encode (username ++ ":" ++ password) },
             retry_config := some { max_retries := 10, interval := 500 } } := by
  unfold BitcoinCoreClient.new HeaderValue.from_str
  rw [authHeader_valid username password]
  rfl

/-! Claim theorems. -/

/-- Claim C1: with a configured retry policy of N retried attempts and any
interval, if the transport calls of the dispatch all report the Node-Busy
application error (code -28) on the first N attempts, then the dispatch
performs exactly N retried attempts followed by one final unconditional
attempt, N + 1 transport calls in total, and returns the result of that
final attempt verbatim, whatever it is; it is never converted to a success
or to a synthetic gave-up error. -/
theorem send_all_busy_makes_final_attempt {R : Type} (N I : Nat)
    (call : Nat → TransportResult R)
    (h : ∀ j, j < N → isBusy (call j) = true) :
    send (some ⟨N, I⟩) call = (call N, busyTrace I 0 N) ∧
    attemptCount (send (some ⟨N, I⟩) call).2 = N + 1 := by
  have hb : ∀ j, j < N → isBusy (call (0 + j)) = true := by
    intro j hj
    simpa using h j hj
  have heq := sendLoop_all_busy I call N 0 hb
  rw [Nat.zero_add] at heq
  refine ⟨heq, ?_⟩
  show attemptCount (sendLoop I call 0 N).2 = N + 1
  rw [heq]
  exact attemptCount_busyTrace I N 0

/-- Witness for the retry-exhaustion theorem: with two retries and a node
that always reports busy, the dispatch makes three transport calls and
returns the busy result of the final call. -/
theorem send_all_busy_makes_final_attempt_witness :
    send (some ⟨2, 7⟩) (fun _ => busyResponse (R := Nat))
        = (busyResponse (R := Nat), busyTrace 7 0 2) ∧
    attemptCount (send (some ⟨2, 7⟩) (fun _ => busyResponse (R := Nat))).2 = 2 + 1 :=
  send_all_busy_makes_final_attempt 2 7 (fun _ => busyResponse) (fun _ _ => rfl)

/-- Claim C2: a transport success carrying an application success, or an
application error with any code other than -28, is returned by the
dispatch immediately from its attempt, consuming no further retry
attempts; only the Node-Busy code -28 triggers a retry. -/
theorem send_nonbusy_app_result_immediate {R : Type} (N I k : Nat)
    (call : Nat → TransportResult R) (appRes : Except RpcError R)
    (hk : k < N)
    (hbusy : ∀ j, j < k → isBusy (call j) = true)
    (hcall : call k = Except.ok appRes)
    (hcode : ∀ e, appRes = Except.error e → e.code ≠ -28) :
    send (some ⟨N, I⟩) call = (Except.ok appRes, busyTrace I 0 k) ∧
    attemptCount (send (some ⟨N, I⟩) call).2 = k + 1 := by
  have hnb : isBusy (call k) = false := by
    rw [hcall]
    cases appRes with
    | ok v => rfl
    | error e =>
      have hne := hcode e rfl
      show (e.code == -28) = false
      exact beq_eq_false_iff_ne.mpr hne
  have hb : ∀ j, j < k → isBusy (call (0 + j)) = true := by
    intro j hj
    simpa using hbusy j hj
  have hnb0 : isBusy (call (0 + k)) = false := by simpa using hnb
  have heq := sendLoop_early I call k N 0 hk hb hnb0
  rw [Nat.zero_add, hcall] at heq
  refine ⟨heq, ?_⟩
  show attemptCount (sendLoop I call 0 N).2 = k + 1
  rw [show sendLoop I call 0 N = (Except.ok appRes, busyTrace I 0 k) from heq]
  exact attemptCount_busyTrace I k 0

/-- Witness: after one busy attempt, an application success at attempt 1 is
returned with exactly two transport calls, under a policy of three
retries. -/
theorem send_nonbusy_app_result_immediate_witness :
    send (some ⟨3, 5⟩)
        (fun j => if j = 0 then busyResponse else Except.ok (Except.ok (42 : Nat)))
        = (Except.ok (Except.ok (42 : Nat)), busyTrace 5 0 1) ∧
    attemptCount (send (some ⟨3, 5⟩)
        (fun j => if j = 0 then busyResponse
          else Except.ok (Except.ok (42 : Nat)))).2 = 1 + 1 :=
  send_nonbusy_app_result_immediate 3 5 1
    (fun j => if j = 0 then busyResponse else Except.ok (Except.ok (42 : Nat)))
    (Except.ok 42) (by decide)
    (fun j hj => by
      have hj0 : j = 0 := by omega
      subst hj0
      rfl)
    rfl
    (fun e he => nomatch he)

/-- Claim C3: under a retry policy with more than one attempt, a transport
failure (outer-layer error) at any attempt is returned immediately from
that attempt with zero further retries. -/
theorem send_transport_failure_immediate {R : Type} (N I k : Nat)
    (call : Nat → TransportResult R) (ce : ClientError)
    (_hN : 1 < N) (hk : k < N)
    (hbusy : ∀ j, j < k → isBusy (call j) = true)
    (hcall : call k = Except.error ce) :
    send (some ⟨N, I⟩) call = (Except.error ce, busyTrace I 0 k) ∧
    attemptCount (send (some ⟨N, I⟩) call).2 = k + 1 := by
  have hnb : isBusy (call k) = false := by
    rw [hcall]
    rfl
  have hb : ∀ j, j < k → isBusy (call (0 + j)) = true := by
    intro j hj
    simpa using hbusy j hj
  have hnb0 : isBusy (call (0 + k)) = false := by simpa using hnb
  have heq := sendLoop_early I call k N 0 hk hb hnb0
  rw [Nat.zero_add, hcall] at heq
  refine ⟨heq, ?_⟩
  show attemptCount (sendLoop I call 0 N).2 = k + 1
  rw [show sendLoop I call 0 N = (Except.error ce, busyTrace I 0 k) from heq]
  exact attemptCount_busyTrace I k 0

/-- Witness: a connection failure on the very first attempt is returned with
exactly one transport call although two retries are configured. -/
theorem send_transport_failure_immediate_witness :
    send (some ⟨2, 9⟩)
        (fun _ => (Except.error { message := "connection refused" } :
          TransportResult Nat))
        = (Except.error { message := "connection refused" }, busyTrace 9 0 0) ∧
    attemptCount (send (some ⟨2, 9⟩)
        (fun _ => (Except.error { message := "connection refused" } :
          TransportResult Nat))).2 = 0 + 1 :=
  send_transport_failure_immediate 2 9 0
    (fun _ => (Except.error { message := "connection refused" } : TransportResult Nat))
    { message := "connection refused" }
    (by decide) (by decide)
    (fun j hj => absurd hj (Nat.not_lt_zero j))
    rfl

/-- Claim C4: a client may carry no retry policy, and dispatch then issues
exactly one transport call and returns its result verbatim, whether it is
a transport failure, an application error (busy included) or a success. -/
theorem send_no_retry_config_single_call {R : Type}
    (call : Nat → TransportResult R) :
    send none call = (call 0, [Event.attempt 0]) ∧
    attemptCount (send none call).2 = 1 :=
  ⟨rfl, rfl⟩

/-- Claim C5: under a policy of N retried attempts at interval I, when the
node reports busy throughout, each of the N retried attempts is followed
by exactly one sleep of I milliseconds before the next attempt — the trace
is the strict interleaving busyTrace — so the fully exhausted sequence
performs exactly N sleeps and accumulates a configured delay of at least
N * I milliseconds. -/
theorem send_busy_sleeps_between_attempts {R : Type} (N I : Nat)
    (call : Nat → TransportResult R)
    (h : ∀ j, j < N → isBusy (call j) = true) :
    (send (some ⟨N, I⟩) call).2 = busyTrace I 0 N ∧
    sleepCount (send (some ⟨N, I⟩) call).2 = N ∧
    N * I ≤ totalSleep (send (some ⟨N, I⟩) call).2 := by
  have hb : ∀ j, j < N → isBusy (call (0 + j)) = true := by
    intro j hj
    simpa using h j hj
  have heq := sendLoop_all_busy I call N 0 hb
  have htrace : (send (some ⟨N, I⟩) call).2 = busyTrace I 0 N := by
    show (sendLoop I call 0 N).2 = busyTrace I 0 N
    rw [heq]
  refine ⟨htrace, ?_, ?_⟩
  · rw [htrace]
    exact sleepCount_busyTrace I N 0
  · rw [htrace, totalSleep_busyTrace I N 0]

/-- Witness: with three retries at 11 milliseconds against an always-busy
node, the dispatch sleeps three times for a total of 33 milliseconds. -/
theorem send_busy_sleeps_between_attempts_witness :
    (send (some ⟨3, 11⟩) (fun _ => busyResponse (R := Nat))).2 = busyTrace 11 0 3 ∧
    sleepCount (send (some ⟨3, 11⟩) (fun _ => busyResponse (R := Nat))).2 = 3 ∧
    3 * 11 ≤ totalSleep (send (some ⟨3, 11⟩) (fun _ => busyResponse (R := Nat))).2 :=
  send_busy_sleeps_between_attempts 3 11 (fun _ => busyResponse) (fun _ _ => rfl)

/-- Claim C6: for every retry configuration, present or absent, and every
sequence of transport responses, the dispatch terminates (it is a total
function) and its value is the outcome of one of its at most
configuredAttempts + 1 real transport calls — a genuine transport or node
outcome of type TransportResult, never a synthetic one — at least one call
having been made. -/
theorem send_always_returns_real_outcome {R : Type}
    (retry_config : Option RetryConfig) (call : Nat → TransportResult R) :
    ∃ j, j ≤ configuredAttempts retry_config ∧
      (send retry_config call).1 = call j ∧
      1 ≤ attemptCount (send retry_config call).2 := by
  cases retry_config with
  | none => exact ⟨0, Nat.le_refl 0, rfl, Nat.le_refl 1⟩
  | some config =>
    obtain ⟨k, hk, heq⟩ := sendLoop_exists config.interval call config.max_retries 0
    refine ⟨k, hk, ?_, ?_⟩
    · show (sendLoop config.interval call 0 config.max_retries).1 = call k
      rw [heq]
      simp
    · show 1 ≤ attemptCount (sendLoop config.interval call 0 config.max_retries).2
      rw [heq]
      show 1 ≤ attemptCount (busyTrace config.interval 0 k)
      rw [attemptCount_busyTrace]
      omega

/-- Claim C7: every client returned by the constructor carries the default
retry policy of 10 attempts at a 500 ms interval, bound together with the
transport binding at construction; the configuration is fixed by
construction (the model, like the source, exposes no mutating
operation). -/
theorem new_default_retry_policy (url username password : String)
    (c : BitcoinCoreClient)
    (h : BitcoinCoreClient.new url username password = some c) :
    c.retry_config = some { max_retries := 10, interval := 500 } ∧
    c.client.url = url := by
  rw [new_eq] at h
  injection h with h2
  subst h2
  exact ⟨rfl, rfl⟩

/-- Witness: a concretely constructed client carries the default policy. -/
theorem new_default_retry_policy_witness :
    ∃ c, BitcoinCoreClient.new "http://localhost:18443" "user" "password" = some c ∧
      c.retry_config = some { max_retries := 10, interval := 500 } ∧
      c.client.url = "http://localhost:18443" :=
  ⟨_, rfl, new_default_retry_policy "http://localhost:18443" "user" "password" _ rfl⟩

/-- Claim C8: the authenticated transport binding is built entirely inside
the constructor: the Basic-Authentication header value
base64(username:password) is computed once at construction time and stored
in the client bound to every outgoing request, and the failure path of
header construction (the none branch of HeaderValue.from_str, the
construction-time panic of the source) also lies inside new — it can in
fact never fire, because a base64 output consists solely of valid header
characters, so for every credential pair construction succeeds with
exactly this header. -/
theorem new_builds_auth_header (url username password : String) :
    BitcoinCoreClient.new url username password =
      some { client := { url := url,
                         authHeader :=
                           "Basic " ++ base64Encode (username ++ ":" ++ password) },
             retry_config := some { max_retries := 10, interval := 500 } } :=
  new_eq url username password

/-- Claim C9: list_unspent maps its minimum-confirmations argument
Unconfirmed to the numeric parameter 0 and AtLeast n to n, and dispatches
the method listunspent through the generic send with the three positional
parameters minimum, maximum, recipients in that order. -/
theorem list_unspent_request_mapping (n : Nat) (max_confirmations : Option Nat)
    (recipients : Option (List Address)) :
    (list_unspent_request TxOutConfirmations.Unconfirmed max_confirmations
        recipients).params
      = [SVal.num 0, Ser.ser max_confirmations, Ser.ser recipients] ∧
    (list_unspent_request (TxOutConfirmations.AtLeast n) max_confirmations
        recipients).params
      = [SVal.num n, Ser.ser max_confirmations, Ser.ser recipients] ∧
    (∀ mc, (list_unspent_request mc max_confirmations recipients).method
      = "listunspent") ∧
    (∀ (c : BitcoinCoreClient) (env : Env (List UnspentTransactionOutput)) mc,
      c.list_unspent env mc max_confirmations recipients
        = c.send env (list_unspent_request mc max_confirmations recipients)) := by
  refine ⟨rfl, rfl, ?_, ?_⟩
  · intro mc
    cases mc <;> rfl
  · intro c env mc
    rfl

/-- Claim C10: every request envelope built by every method of the client
uses JSON-RPC version V1, the constant request id 42 and at most four
positional parameters, and every method delegates to the single generic
send dispatch with its fixed envelope, embedding no retry or transport
logic of its own. -/
theorem all_requests_use_v1_and_constant_id :
    (∀ n ps, envelopeOk (add_multisig_address_request n ps))
    ∧ (∀ ins out, envelopeOk (create_raw_transaction_request ins out))
    ∧ (∀ tx, envelopeOk (decode_rawtransaction_request tx))
    ∧ (∀ s, envelopeOk (decode_script_request s))
    ∧ (∀ a, envelopeOk (dump_privkey_request a))
    ∧ (∀ tx o, envelopeOk (fund_raw_transaction_request tx o))
    ∧ (∀ n, envelopeOk (generate_request n))
    ∧ (∀ n a, envelopeOk (generate_to_address_request n a))
    ∧ (∀ a, envelopeOk (get_address_info_request a))
    ∧ envelopeOk get_balance_request
    ∧ envelopeOk get_best_block_hash_request
    ∧ (∀ h, envelopeOk (get_block_request h))
    ∧ (∀ h, envelopeOk (get_block_verbose_request h))
    ∧ envelopeOk get_blockchain_info_request
    ∧ envelopeOk get_block_count_request
    ∧ (∀ h, envelopeOk (get_block_hash_request h))
    ∧ envelopeOk get_new_address_request
    ∧ (∀ tx v, envelopeOk (get_raw_transaction_request tx v))
    ∧ (∀ mc mx r, envelopeOk (list_unspent_request mc mx r))
    ∧ (∀ tx, envelopeOk (send_raw_transaction_request tx))
    ∧ (∀ a amt, envelopeOk (send_to_address_request a amt))
    ∧ (∀ tx pk dep sh,
        envelopeOk (sign_raw_transaction_with_key_request tx pk dep sh))
    ∧ (∀ a, envelopeOk (validate_address_request a))
    ∧ (∀ (c : BitcoinCoreClient) (env : Env MultiSigAddress) n ps,
        c.add_multisig_address env n ps
          = c.send env (add_multisig_address_request n ps))
    ∧ (∀ (c : BitcoinCoreClient) (env : Env SerializedRawTransaction) ins out,
        c.create_raw_transaction env ins out
          = c.send env (create_raw_transaction_request ins out))
    ∧ (∀ (c : BitcoinCoreClient) (env : Env DecodedRawTransaction) tx,
        c.decode_rawtransaction env tx = c.send env (decode_rawtransaction_request tx))
    ∧ (∀ (c : BitcoinCoreClient) (env : Env DecodedScript) s,
        c.decode_script env s = c.send env (decode_script_request s))
    ∧ (∀ (c : BitcoinCoreClient) (env : Env PrivateKey) a,
        c.dump_privkey env a = c.send env (dump_privkey_request a))
    ∧ (∀ (c : BitcoinCoreClient) (env : Env FundingResult) tx o,
        c.fund_raw_transaction env tx o
          = c.send env (fund_raw_transaction_request tx o))
    ∧ (∀ (c : BitcoinCoreClient) (env : Env (List BlockHash)) n,
        c.generate env n = c.send env (generate_request n))
    ∧ (∀ (c : BitcoinCoreClient) (env : Env (List BlockHash)) n a,
        c.generate_to_address env n a
          = c.send env (generate_to_address_request n a))
    ∧ (∀ (c : BitcoinCoreClient) (env : Env AddressInfoResult) a,
        c.get_address_info env a = c.send env (get_address_info_request a))
    ∧ (∀ (c : BitcoinCoreClient) (env : Env F32),
        c.get_balance env = c.send env get_balance_request)
    ∧ (∀ (c : BitcoinCoreClient) (env : Env BlockHash),
        c.get_best_block_hash env = c.send env get_best_block_hash_request)
    ∧ (∀ (c : BitcoinCoreClient) (env : Env (Block TransactionId)) h,
        c.get_block env h = c.send env (get_block_request h))
    ∧ (∀ (c : BitcoinCoreClient) (env : Env (Block DecodedRawTransaction)) h,
        c.get_block_verbose env h = c.send env (get_block_verbose_request h))
    ∧ (∀ (c : BitcoinCoreClient) (env : Env BlockchainInfo),
        c.get_blockchain_info env = c.send env get_blockchain_info_request)
    ∧ (∀ (c : BitcoinCoreClient) (env : Env BlockHeight),
        c.get_block_count env = c.send env get_block_count_request)
    ∧ (∀ (c : BitcoinCoreClient) (env : Env BlockHash) h,
        c.get_block_hash env h = c.send env (get_block_hash_request h))
    ∧ (∀ (c : BitcoinCoreClient) (env : Env Address),
        c.get_new_address env = c.send env get_new_address_request)
    ∧ (∀ (R : Type) (c : BitcoinCoreClient) (env : Env R) tx v,
        c.get_raw_transaction env tx v
          = c.send env (get_raw_transaction_request tx v))
    ∧ (∀ (c : BitcoinCoreClient) (env : Env SerializedRawTransaction) tx,
        c.get_raw_transaction_serialized env tx = c.get_raw_transaction env tx false)
    ∧ (∀ (c : BitcoinCoreClient) (env : Env VerboseRawTransaction) tx,
        c.get_raw_transaction_verbose env tx = c.get_raw_transaction env tx true)
    ∧ (∀ (c : BitcoinCoreClient) (env : Env (List UnspentTransactionOutput)) mc mx r,
        c.list_unspent env mc mx r = c.send env (list_unspent_request mc mx r))
    ∧ (∀ (c : BitcoinCoreClient) (env : Env TransactionId) tx,
        c.send_raw_transaction env tx = c.send env (send_raw_transaction_request tx))
    ∧ (∀ (c : BitcoinCoreClient) (env : Env TransactionId) a amt,
        c.send_to_address env a amt = c.send env (send_to_address_request a amt))
    ∧ (∀ (c : BitcoinCoreClient) (env : Env SigningResult) tx pk dep sh,
        c.sign_raw_transaction_with_key env tx pk dep sh
          = c.send env (sign_raw_transaction_with_key_request tx pk dep sh))
    ∧ (∀ (c : BitcoinCoreClient) (env : Env AddressValidationResult) a,
        c.validate_address env a = c.send env (validate_address_request a)) := by
  repeat' apply And.intro
  all_goals intros
  all_goals
    first
      | rfl
      | decide
      | exact ⟨rfl, rfl, by
          simp [envelopeOk, add_multisig_address_request,
            create_raw_transaction_request, decode_rawtransaction_request,
            decode_script_request, dump_privkey_request,
            fund_raw_transaction_request, generate_request,
            generate_to_address_request, get_address_info_request,
            get_balance_request, get_best_block_hash_request,
            get_block_request, get_block_verbose_request,
            get_blockchain_info_request, get_block_count_request,
            get_block_hash_request, get_new_address_request,
            get_raw_transaction_request, list_unspent_request,
            send_raw_transaction_request, send_to_address_request,
            sign_raw_transaction_with_key_request, validate_address_request,
            RpcRequest.new0, RpcRequest.new1, RpcRequest.new2,
            RpcRequest.new3, RpcRequest.new4]⟩

end BitcoinRpcClient
